import Mathlib

/-!
Shallow embedding of the instruction handlers of the pinocchio-guide
repository, and proofs about the decode / validate / invoke contract they
implement.

Modelling conventions:
- a byte buffer is a `List Nat` (each entry one byte);
- `AccountInfo` carries the observable properties the handlers read:
  `key`, `owner`, `is_signer`, `is_writable` (public keys are opaque
  identities, modelled as `Nat`);
- the SDK instruction objects (`MintTo`, `Transfer`, ...) are external
  collaborators; their `invoke` / `invoke_signed` boundary is modelled by
  `invokeExec`, parametrised by the outcome `execRes` the SDK call would
  return, and every handler outcome records how many times that boundary
  was crossed (`execCalls`);
- the `unsafe` raw-pointer reads of the Rust source are modelled as
  partial reads (`readByte`, `readBytes`, `readLE`): a read past the end
  of the buffer yields `none`, and a handler that performs such a read has
  outcome `RunResult.outOfBounds` (undefined behaviour in the source);
- `assert!` / `assert_eq!` failures are `RunResult.panicked` with the
  panic message, distinct from typed errors `RunResult.failure`.
-/

namespace PinocchioGuide

/-- Typed errors returned by the handlers (`pinocchio::program_error::ProgramError`). -/
inductive ProgramError where
  | invalidInstructionData
  | notEnoughAccountKeys
  | missingRequiredSignature
  | invalidAccountData
  | incorrectProgramId
  | invalidSeeds
  | custom (code : Nat)
  deriving DecidableEq, Repr

/-- Result of running one handler on one invocation. -/
inductive RunResult where
  | success
  | failure (e : ProgramError)
  | panicked (msg : String)
  | outOfBounds
  deriving DecidableEq, Repr

/-- Observable properties of one supplied account (`pinocchio::account_info::AccountInfo`). -/
structure AccountInfo where
  key : Nat
  owner : Nat
  is_signer : Bool
  is_writable : Bool
  deriving DecidableEq, Repr

/-- Outcome of one invocation: the handler result plus the number of times the
SDK executor boundary (`invoke` / `invoke_signed`) was crossed. -/
structure Outcome where
  result : RunResult
  execCalls : Nat
  deriving DecidableEq, Repr

/-- The SDK executor boundary: one call into the pre-built SDK instruction,
whose result `execRes` (`none` = success) is propagated unchanged. -/
def invokeExec (execRes : Option ProgramError) : Outcome :=
  match execRes with
  | none => ⟨.success, 1⟩
  | some e => ⟨.failure e, 1⟩

/-- Reading a single byte at index `i` (the source's `*(data.as_ptr().add(i))`). -/
def readByte (data : List Nat) (i : Nat) : Option Nat :=
  data[i]?

/-- Reading `w` consecutive bytes starting at `off`. -/
def readBytes (data : List Nat) (off : Nat) : Nat → Option (List Nat)
  | 0 => some []
  | w + 1 =>
    match data[off]?, readBytes data (off + 1) w with
    | some b, some rest => some (b :: rest)
    | _, _ => none

/-- Little-endian value of a byte list. -/
def leVal (bytes : List Nat) : Nat :=
  bytes.foldr (fun b acc => b + 256 * acc) 0

/-- Reading a `w`-byte little-endian unsigned integer at offset `off`
(the source's `*(data.as_ptr().add(off) as *const u64)` on a little-endian
target). -/
def readLE (data : List Nat) (off w : Nat) : Option Nat :=
  (readBytes data off w).map leVal

/-- Little-endian byte encoding of a `u64` (Rust's `u64::to_le_bytes`, used by
the repository's tests to build payloads). -/
def u64_to_le_bytes (n : Nat) : List Nat :=
  [n % 256, n / 256 % 256, n / 256 ^ 2 % 256, n / 256 ^ 3 % 256,
   n / 256 ^ 4 % 256, n / 256 ^ 5 % 256, n / 256 ^ 6 % 256, n / 256 ^ 7 % 256]

/-- Maximum seed length accepted by the handlers. The constant is
`pinocchio::pubkey::MAX_SEED_LEN` from the external SDK (the Solana seed
limit, 32); the repository only compares against it. -/
def MAX_SEED_LEN : Nat := 32

namespace Examples

namespace MintTo

/-- Embeds `process_mint_to` from `examples/programs/src/token/mint_to.rs`:
exact four-account destructuring, `assert!`-based role checks (which panic,
not error), then `invoke_signed`. -/
def process_mint_to (accounts : List AccountInfo) (amount bump : Nat)
    (execRes : Option ProgramError) : Outcome :=
  match accounts with
  | [mint_account, token_account, mint_authority, _token_program] =>
    if !mint_account.is_writable then ⟨.panicked "Mint account is not writable", 0⟩
    else if !token_account.is_writable then ⟨.panicked "Token account is not writable", 0⟩
    else if !mint_authority.is_signer then ⟨.panicked "Mint authority is not a signer", 0⟩
    else invokeExec execRes
  | _ => ⟨.failure .notEnoughAccountKeys, 0⟩

/-- Embeds `process_instruction` from `examples/programs/src/token/mint_to.rs`:
rejects payloads shorter than 9 bytes, then reads `amount` (8-byte LE at
offset 0) and `bump` (1 byte at offset 8) and delegates. The `pid` argument
models the unused `_program_id` parameter. -/
def process_instruction (pid : Nat) (accounts : List AccountInfo) (data : List Nat)
    (execRes : Option ProgramError) : Outcome :=
  if data.length < 9 then ⟨.failure .invalidInstructionData, 0⟩
  else
    match readLE data 0 8, readByte data 8 with
    | some amount, some bump => process_mint_to accounts amount bump execRes
    | _, _ => ⟨.outOfBounds, 0⟩

end MintTo

namespace MintToChecked

/-- Embeds `process_mint_to_checked` from
`examples/programs/src/token/mint_to_checked.rs`: exact three-account
destructuring, early-return role checks, then `invoke_signed`. -/
def process_mint_to_checked (accounts : List AccountInfo) (amount decimals bump : Nat)
    (execRes : Option ProgramError) : Outcome :=
  match accounts with
  | [mint_account, token_account, mint_authority] =>
    if !mint_account.is_writable then ⟨.failure .invalidAccountData, 0⟩
    else if !token_account.is_writable then ⟨.failure .invalidAccountData, 0⟩
    else if !mint_authority.is_signer then ⟨.failure .missingRequiredSignature, 0⟩
    else invokeExec execRes
  | _ => ⟨.failure .notEnoughAccountKeys, 0⟩

/-- Embeds `process_instruction` from
`examples/programs/src/token/mint_to_checked.rs`: checks `data.len() < 9`,
then reads `amount` (8-byte LE at offset 0), `decimals` (1 byte at offset 8)
and `bump` (1 byte at offset 9). Note the bump read is at offset 9 while the
check only guarantees 9 bytes. -/
def process_instruction (pid : Nat) (accounts : List AccountInfo) (data : List Nat)
    (execRes : Option ProgramError) : Outcome :=
  if data.length < 9 then ⟨.failure .invalidInstructionData, 0⟩
  else
    match readLE data 0 8, readByte data 8, readByte data 9 with
    | some amount, some decimals, some bump =>
      process_mint_to_checked accounts amount decimals bump execRes
    | _, _, _ => ⟨.outOfBounds, 0⟩

/-- The decode step of the mint-to-checked entry point succeeds: the length
check passed and every field read was in bounds. -/
def decode_ok (data : List Nat) : Bool :=
  !(data.length < 9) && (readLE data 0 8).isSome &&
    (readByte data 8).isSome && (readByte data 9).isSome

/-- All account-role checks of `process_mint_to_checked` pass. -/
def checks_pass (accounts : List AccountInfo) : Bool :=
  match accounts with
  | [mint_account, token_account, mint_authority] =>
    mint_account.is_writable && token_account.is_writable && mint_authority.is_signer
  | _ => false

end MintToChecked

namespace TransferTokens

/-- Embeds `process_transfer` from
`examples/programs/src/token/transfer_tokens.rs`: exact four-account
destructuring, `assert!` / `assert_eq!` based checks (writable sender and
recipient, both owned by the token program, signing authority), then
`invoke`. -/
def process_transfer (accounts : List AccountInfo) (amount : Nat)
    (execRes : Option ProgramError) : Outcome :=
  match accounts with
  | [sender_account, recipient_account, authority_account, token_program] =>
    if !sender_account.is_writable then
      ⟨.panicked "Sender account is not writable", 0⟩
    else if !recipient_account.is_writable then
      ⟨.panicked "Recipient account is not writable", 0⟩
    else if sender_account.owner != token_program.key then
      ⟨.panicked "Sender account is not owned by the token program", 0⟩
    else if recipient_account.owner != token_program.key then
      ⟨.panicked "Recipient account is not owned by the token program", 0⟩
    else if !authority_account.is_signer then
      ⟨.panicked "Authority is not a signer", 0⟩
    else invokeExec execRes
  | _ => ⟨.failure .notEnoughAccountKeys, 0⟩

/-- Embeds `process_instruction` from
`examples/programs/src/token/transfer_tokens.rs`: rejects payloads shorter
than 8 bytes, reads `amount` (8-byte LE at offset 0) and delegates. -/
def process_instruction (pid : Nat) (accounts : List AccountInfo) (data : List Nat)
    (execRes : Option ProgramError) : Outcome :=
  if data.length < 8 then ⟨.failure .invalidInstructionData, 0⟩
  else
    match readLE data 0 8 with
    | some amount => process_transfer accounts amount execRes
    | none => ⟨.outOfBounds, 0⟩

end TransferTokens

namespace AllocateWithSeed

/-- Embeds `process_allocate_with_seed` from
`examples/programs/src/system/allocate_with_seed.rs`: exact two-account
destructuring, base-account signer check, seed length bound against
`MAX_SEED_LEN`, then `invoke_signed`. -/
def process_allocate_with_seed (accounts : List AccountInfo) (seed : List Nat)
    (space : Nat) (owner : List Nat) (bump : Nat)
    (execRes : Option ProgramError) : Outcome :=
  match accounts with
  | [_allocated_account, base_account] =>
    if !base_account.is_signer then ⟨.failure .missingRequiredSignature, 0⟩
    else if seed.length > MAX_SEED_LEN then ⟨.failure .invalidSeeds, 0⟩
    else invokeExec execRes
  | _ => ⟨.failure .notEnoughAccountKeys, 0⟩

/-- Embeds `process_instruction` from
`examples/programs/src/system/allocate_with_seed.rs`: checks
`data.len() < 10`, reads the untrusted seed length byte at offset 0,
re-checks `data.len() < 1 + seed_len + 8 + 32 + 1`, then reads the seed
bytes, `space` (8-byte LE), `owner` (32 bytes) and `bump` (1 byte). -/
def process_instruction (pid : Nat) (accounts : List AccountInfo) (data : List Nat)
    (execRes : Option ProgramError) : Outcome :=
  if data.length < 10 then ⟨.failure .invalidInstructionData, 0⟩
  else
    match readByte data 0 with
    | none => ⟨.outOfBounds, 0⟩
    | some seed_len =>
      if data.length < 1 + seed_len + 8 + 32 + 1 then
        ⟨.failure .invalidInstructionData, 0⟩
      else
        match readBytes data 1 seed_len, readLE data (1 + seed_len) 8,
              readBytes data (1 + seed_len + 8) 32,
              readByte data (1 + seed_len + 8 + 32) with
        | some seed, some space, some owner, some bump =>
          process_allocate_with_seed accounts seed space owner bump execRes
        | _, _, _, _ => ⟨.outOfBounds, 0⟩

end AllocateWithSeed

namespace CreateAccountWithSeed

/-- Embeds `process_create_account_with_seed` from
`examples/programs/src/system/create_account_with_seed.rs`: exact
three-account destructuring, an `assert!` that the funding or new account
signs, then `invoke_signed`. -/
def process_create_account_with_seed (accounts : List AccountInfo) (seed : List Nat)
    (lamports space : Nat) (owner : List Nat) (bump : Nat)
    (execRes : Option ProgramError) : Outcome :=
  match accounts with
  | [funding_account, new_account, _base_account] =>
    if !(funding_account.is_signer || new_account.is_signer) then
      ⟨.panicked "assertion failed: funding_account.is_signer() || new_account.is_signer()", 0⟩
    else invokeExec execRes
  | _ => ⟨.failure .notEnoughAccountKeys, 0⟩

/-- Embeds `process_instruction` from
`examples/programs/src/system/create_account_with_seed.rs`: checks
`data.len() < 41`, reads the seed length byte, re-checks
`data.len() < 1 + seed_len + 8 + 8 + 32 + 1`, then reads seed, `lamports`,
`space`, `owner` and `bump`. -/
def process_instruction (pid : Nat) (accounts : List AccountInfo) (data : List Nat)
    (execRes : Option ProgramError) : Outcome :=
  if data.length < 41 then ⟨.failure .invalidInstructionData, 0⟩
  else
    match readByte data 0 with
    | none => ⟨.outOfBounds, 0⟩
    | some seed_len =>
      if data.length < 1 + seed_len + 8 + 8 + 32 + 1 then
        ⟨.failure .invalidInstructionData, 0⟩
      else
        match readBytes data 1 seed_len, readLE data (1 + seed_len) 8,
              readLE data (1 + seed_len + 8) 8,
              readBytes data (1 + seed_len + 8 + 8) 32,
              readByte data (1 + seed_len + 8 + 8 + 32) with
        | some seed, some lamports, some space, some owner, some bump =>
          process_create_account_with_seed accounts seed lamports space owner bump execRes
        | _, _, _, _, _ => ⟨.outOfBounds, 0⟩

end CreateAccountWithSeed

end Examples

namespace Programs

namespace Transfer

/-- Embeds `process_transfer` from `programs/src/transfer.rs`: exact
four-account destructuring, early-return checks (writable sender and
recipient, both owned by the token program, signing authority), then
`invoke`. The `pid` argument models the unused `program_id` parameter. -/
def process_transfer (accounts : List AccountInfo) (amount pid : Nat)
    (execRes : Option ProgramError) : Outcome :=
  match accounts with
  | [sender_account, recipient_account, authority_account, token_program] =>
    if !sender_account.is_writable then ⟨.failure .invalidAccountData, 0⟩
    else if !recipient_account.is_writable then ⟨.failure .invalidAccountData, 0⟩
    else if sender_account.owner != token_program.key
        || recipient_account.owner != token_program.key then
      ⟨.failure .incorrectProgramId, 0⟩
    else if !authority_account.is_signer then ⟨.failure .missingRequiredSignature, 0⟩
    else invokeExec execRes
  | _ => ⟨.failure .notEnoughAccountKeys, 0⟩

/-- Embeds `process_instruction` from `programs/src/transfer.rs`: rejects
payloads shorter than 8 bytes, reads `amount` (8-byte LE at offset 0) and
delegates. -/
def process_instruction (pid : Nat) (accounts : List AccountInfo) (data : List Nat)
    (execRes : Option ProgramError) : Outcome :=
  if data.length < 8 then ⟨.failure .invalidInstructionData, 0⟩
  else
    match readLE data 0 8 with
    | some amount => process_transfer accounts amount pid execRes
    | none => ⟨.outOfBounds, 0⟩

/-- All account-role checks of `Programs.Transfer.process_transfer` pass. -/
def checks_pass (accounts : List AccountInfo) : Bool :=
  match accounts with
  | [sender_account, recipient_account, authority_account, token_program] =>
    sender_account.is_writable && recipient_account.is_writable &&
      (sender_account.owner == token_program.key) &&
      (recipient_account.owner == token_program.key) &&
      authority_account.is_signer
  | _ => false

end Transfer

namespace TransferLamports

/-- Embeds `process_transfer` from `programs/src/system/transfer_lamports.rs`:
exact two-account destructuring, then `assert!` checks — note the source
asserts `from_account.is_writable() || from_account.is_signer()` (a
disjunction, despite the `[WRITE, SIGNER]` doc comment) and panics rather
than returning a typed error — then `invoke_signed`. The opaque `signers`
argument of the source only feeds `invoke_signed` and is absorbed into
`execRes`. -/
def process_transfer (accounts : List AccountInfo) (lamports : Nat)
    (execRes : Option ProgramError) : Outcome :=
  match accounts with
  | [from_account, to_account] =>
    if !(from_account.is_writable || from_account.is_signer) then
      ⟨.panicked "assertion failed: from_account.is_writable() || from_account.is_signer()", 0⟩
    else if !to_account.is_writable then
      ⟨.panicked "assertion failed: to_account.is_writable()", 0⟩
    else invokeExec execRes
  | _ => ⟨.failure .notEnoughAccountKeys, 0⟩

end TransferLamports

end Programs

/-! Supporting lemmas about the byte readers and the executor boundary. -/

theorem invokeExec_execCalls (execRes : Option ProgramError) :
    (invokeExec execRes).execCalls = 1 := by
  cases execRes <;> rfl

theorem readByte_isSome_iff (data : List Nat) (i : Nat) :
    (readByte data i).isSome ↔ i < data.length := by
  unfold readByte
  constructor
  · intro h
    by_contra hc
    rw [List.getElem?_eq_none (by omega)] at h
    simp at h
  · intro h
    rw [List.getElem?_eq_getElem h]
    rfl

theorem readByte_eq_none (data : List Nat) (i : Nat) (h : data.length ≤ i) :
    readByte data i = none := by
  unfold readByte
  exact List.getElem?_eq_none h

theorem readBytes_isSome (data : List Nat) (w : Nat) :
    ∀ off, off + w ≤ data.length → (readBytes data off w).isSome := by
  induction w with
  | zero => intro off _; rfl
  | succ w ih =>
    intro off h
    have hb : (data[off]?).isSome := by
      have := (readByte_isSome_iff data off).mpr (by omega)
      simpa [readByte] using this
    have hr : (readBytes data (off + 1) w).isSome := ih (off + 1) (by omega)
    unfold readBytes
    rcases hb' : data[off]? with _ | b
    · rw [hb'] at hb; simp at hb
    · rcases hr' : readBytes data (off + 1) w with _ | rest
      · rw [hr'] at hr; simp at hr
      · simp

theorem readBytes_eq_some (data : List Nat) (w off : Nat) (h : off + w ≤ data.length) :
    ∃ bs, readBytes data off w = some bs := by
  have := readBytes_isSome data w off h
  rcases hb : readBytes data off w with _ | bs
  · rw [hb] at this; simp at this
  · exact ⟨bs, rfl⟩

theorem readLE_eq_some (data : List Nat) (w off : Nat) (h : off + w ≤ data.length) :
    ∃ v, readLE data off w = some v := by
  obtain ⟨bs, hbs⟩ := readBytes_eq_some data w off h
  exact ⟨leVal bs, by simp [readLE, hbs]⟩

theorem transfer_process_execCalls (accounts : List AccountInfo) (amount pid : Nat)
    (execRes : Option ProgramError) :
    (Programs.Transfer.process_transfer accounts amount pid execRes).execCalls =
      if Programs.Transfer.checks_pass accounts = true then 1 else 0 := by
  rcases accounts with _ | ⟨s, _ | ⟨r, _ | ⟨a, _ | ⟨tp, _ | ⟨e, rest⟩⟩⟩⟩⟩ <;>
    simp only [Programs.Transfer.process_transfer, Programs.Transfer.checks_pass] <;>
    try rfl
  by_cases h1 : s.is_writable = true <;>
    by_cases h2 : r.is_writable = true <;>
      by_cases h3 : s.owner = tp.key <;>
        by_cases h4 : r.owner = tp.key <;>
          by_cases h5 : a.is_signer = true <;>
            simp [h1, h2, h3, h4, h5, invokeExec_execCalls]

theorem mint_to_checked_process_execCalls (accounts : List AccountInfo)
    (amount decimals bump : Nat) (execRes : Option ProgramError) :
    (Examples.MintToChecked.process_mint_to_checked accounts amount decimals bump
        execRes).execCalls =
      if Examples.MintToChecked.checks_pass accounts = true then 1 else 0 := by
  rcases accounts with _ | ⟨m, _ | ⟨t, _ | ⟨a, _ | ⟨e, rest⟩⟩⟩⟩ <;>
    simp only [Examples.MintToChecked.process_mint_to_checked,
      Examples.MintToChecked.checks_pass] <;>
    try rfl
  by_cases h1 : m.is_writable = true <;>
    by_cases h2 : t.is_writable = true <;>
      by_cases h3 : a.is_signer = true <;>
        simp [h1, h2, h3, invokeExec_execCalls]

theorem mint_to_checked_decode_ok_iff (data : List Nat) :
    Examples.MintToChecked.decode_ok data = true ↔ 10 ≤ data.length := by
  unfold Examples.MintToChecked.decode_ok
  constructor
  · intro h
    simp only [Bool.and_eq_true] at h
    have h9 := h.2
    rw [readByte_isSome_iff] at h9
    omega
  · intro h
    obtain ⟨v, hv⟩ := readLE_eq_some data 8 0 (by omega)
    have h8 : (readByte data 8).isSome := (readByte_isSome_iff data 8).mpr (by omega)
    have h9 : (readByte data 9).isSome := (readByte_isSome_iff data 9).mpr (by omega)
    simp [hv, h8, h9]
    omega

/-! Claim theorems. -/

/-- C1: the claim says every field read stays within the payload buffer behind
a `offset + width <= len` check. The mint-to-checked entry point violates
this: its only check is `data.len() < 9`, yet it reads the bump byte at
offset 9, so a 9-byte payload passes the check and the read at offset 9 goes
one byte past the end of the buffer (outcome `outOfBounds`). The
allocate-with-seed entry point, in contrast, handles the over-declared seed
length correctly: a length byte of 200 with only 9 bytes remaining fails
with `invalidInstructionData` and performs no out-of-bounds read. -/
theorem c1_mint_to_checked_reads_past_bounds :
    Examples.MintToChecked.process_instruction 0
        [⟨1, 0, false, true⟩, ⟨2, 0, false, true⟩, ⟨3, 0, true, false⟩]
        (List.replicate 9 0) none = ⟨.outOfBounds, 0⟩
    ∧ Examples.AllocateWithSeed.process_instruction 0
        [⟨1, 0, false, true⟩, ⟨2, 0, true, false⟩]
        (200 :: List.replicate 9 0) none = ⟨.failure .invalidInstructionData, 0⟩ := by
  decide

/-- C2: every payload shorter than the operation's declared minimum length
(8 bytes for the token-transfer entry, 9 for the mint-to entry) is rejected
with `invalidInstructionData`; the outcome is the same for every account
list and executor behaviour, and the executor boundary is never crossed
(`execCalls = 0`), so neither the account validation nor the executor is
reached. -/
theorem c2_short_payload_rejected_before_validation (pid : Nat)
    (accounts : List AccountInfo) (data : List Nat) (execRes : Option ProgramError) :
    (data.length < 8 →
      Examples.TransferTokens.process_instruction pid accounts data execRes =
        ⟨.failure .invalidInstructionData, 0⟩)
    ∧ (data.length < 9 →
      Examples.MintTo.process_instruction pid accounts data execRes =
        ⟨.failure .invalidInstructionData, 0⟩) := by
  constructor
  · intro h
    unfold Examples.TransferTokens.process_instruction
    rw [if_pos h]
  · intro h
    unfold Examples.MintTo.process_instruction
    rw [if_pos h]

/-- Witness for C2 at a concrete 3-byte payload. -/
theorem c2_short_payload_witness :
    Examples.TransferTokens.process_instruction 0 [] [1, 2, 3] none =
      ⟨.failure .invalidInstructionData, 0⟩
    ∧ Examples.MintTo.process_instruction 0 [] [1, 2, 3] none =
      ⟨.failure .invalidInstructionData, 0⟩ :=
  ⟨(c2_short_payload_rejected_before_validation 0 [] [1, 2, 3] none).1 (by decide),
   (c2_short_payload_rejected_before_validation 0 [] [1, 2, 3] none).2 (by decide)⟩

/-- C3: the claim says a two-account invocation of the lamports-transfer
operation whose first account is not a signer fails with the
missing-signature error. The code instead asserts
`from_account.is_writable() || from_account.is_signer()`: a writable
non-signer source is accepted and the executor is invoked (first conjunct),
and when the source is neither writable nor a signer the handler panics via
`assert!` rather than returning the missing-signature error (second
conjunct). -/
theorem c3_unsigned_source_accepted_or_panic :
    Programs.TransferLamports.process_transfer
        [⟨1, 0, false, true⟩, ⟨2, 0, false, true⟩] 5 none = ⟨.success, 1⟩
    ∧ Programs.TransferLamports.process_transfer
        [⟨1, 0, false, false⟩, ⟨2, 0, false, true⟩] 5 none =
      ⟨.panicked "assertion failed: from_account.is_writable() || from_account.is_signer()", 0⟩ := by
  decide

/-- C5: an account list whose length differs from the operation's expected
positional count — four for mint-to, two for lamports-transfer — always
fails with `notEnoughAccountKeys` before the executor boundary, whether the
list is too short or too long; extra accounts are never silently ignored. -/
theorem c5_arity_mismatch_fails (accounts : List AccountInfo)
    (amount bump lamports : Nat) (execRes : Option ProgramError) :
    (accounts.length ≠ 4 →
      Examples.MintTo.process_mint_to accounts amount bump execRes =
        ⟨.failure .notEnoughAccountKeys, 0⟩)
    ∧ (accounts.length ≠ 2 →
      Programs.TransferLamports.process_transfer accounts lamports execRes =
        ⟨.failure .notEnoughAccountKeys, 0⟩) := by
  constructor
  · intro h
    rcases accounts with _ | ⟨a, _ | ⟨b, _ | ⟨c, _ | ⟨d, _ | ⟨e, rest⟩⟩⟩⟩⟩ <;>
      first
        | rfl
        | exact absurd rfl h
  · intro h
    rcases accounts with _ | ⟨a, _ | ⟨b, _ | ⟨c, rest⟩⟩⟩ <;>
      first
        | rfl
        | exact absurd rfl h

/-- Witness for C5: a five-account list (one extra) for mint-to and a
one-account list for lamports-transfer. -/
theorem c5_arity_mismatch_witness :
    Examples.MintTo.process_mint_to
        [⟨1, 0, false, true⟩, ⟨2, 0, false, true⟩, ⟨3, 0, true, false⟩,
         ⟨4, 0, false, false⟩, ⟨5, 0, false, false⟩] 9 7 none =
      ⟨.failure .notEnoughAccountKeys, 0⟩
    ∧ Programs.TransferLamports.process_transfer [⟨1, 0, true, true⟩] 5 none =
      ⟨.failure .notEnoughAccountKeys, 0⟩ :=
  ⟨(c5_arity_mismatch_fails
      [⟨1, 0, false, true⟩, ⟨2, 0, false, true⟩, ⟨3, 0, true, false⟩,
       ⟨4, 0, false, false⟩, ⟨5, 0, false, false⟩] 9 7 5 none).1 (by decide),
   (c5_arity_mismatch_fails [⟨1, 0, true, true⟩] 9 7 5 none).2 (by decide)⟩

/-- C6: the claim says account-role violations always produce a typed error
value, never a process-ending assertion. The cited handlers validate with
`assert!`: a non-writable mint account makes the mint-to handler panic, and
a non-writable sender makes the token-transfer handler panic — in both
cases the outcome is a panic, not a typed `failure`. -/
theorem c6_role_violation_panics_not_typed_error :
    Examples.MintTo.process_mint_to
        [⟨1, 0, false, false⟩, ⟨2, 0, false, true⟩, ⟨3, 0, true, false⟩,
         ⟨4, 0, false, false⟩] 9 7 none =
      ⟨.panicked "Mint account is not writable", 0⟩
    ∧ Examples.TransferTokens.process_transfer
        [⟨1, 5, false, false⟩, ⟨2, 5, false, true⟩, ⟨3, 0, true, false⟩,
         ⟨5, 0, false, false⟩] 9 none =
      ⟨.panicked "Sender account is not writable", 0⟩ := by
  decide

/-- C10: the entry points never inspect the program-id argument: two
invocations of mint-to or create-account-with-seed that agree on the account
list, the payload and the executor behaviour but differ in the program id
produce identical outcomes (same result, same number of executor calls). -/
theorem c10_program_id_never_inspected (pid1 pid2 : Nat)
    (accounts : List AccountInfo) (data : List Nat) (execRes : Option ProgramError) :
    Examples.MintTo.process_instruction pid1 accounts data execRes =
      Examples.MintTo.process_instruction pid2 accounts data execRes
    ∧ Examples.CreateAccountWithSeed.process_instruction pid1 accounts data execRes =
      Examples.CreateAccountWithSeed.process_instruction pid2 accounts data execRes :=
  ⟨rfl, rfl⟩

/-- C4: for the token-transfer handler of `programs/src/transfer.rs` and the
mint-to-checked handler, the executor boundary is crossed exactly once when
the decode step and all account-role checks pass, and exactly zero times
otherwise; the embedding has no other effect channel, so nothing observable
happens on a failing path before the executor boundary. -/
theorem c4_executor_invoked_once_iff_checks_pass (pid : Nat)
    (accounts : List AccountInfo) (data : List Nat) (execRes : Option ProgramError) :
    ((Programs.Transfer.process_instruction pid accounts data execRes).execCalls =
      if 8 ≤ data.length ∧ Programs.Transfer.checks_pass accounts = true then 1 else 0)
    ∧ ((Examples.MintToChecked.process_instruction pid accounts data execRes).execCalls =
      if Examples.MintToChecked.decode_ok data = true
          ∧ Examples.MintToChecked.checks_pass accounts = true then 1 else 0) := by
  constructor
  · by_cases hlen : data.length < 8
    · unfold Programs.Transfer.process_instruction
      rw [if_pos hlen, if_neg (fun hc => absurd hc.1 (by omega))]
    · obtain ⟨v, hv⟩ := readLE_eq_some data 8 0 (by omega)
      unfold Programs.Transfer.process_instruction
      rw [if_neg hlen, hv]
      show (Programs.Transfer.process_transfer accounts v pid execRes).execCalls = _
      rw [transfer_process_execCalls]
      by_cases hcp : Programs.Transfer.checks_pass accounts = true
      · rw [if_pos hcp, if_pos ⟨by omega, hcp⟩]
      · rw [if_neg hcp, if_neg (fun hc => hcp hc.2)]
  · by_cases h10 : 10 ≤ data.length
    · obtain ⟨v, hv⟩ := readLE_eq_some data 8 0 (by omega)
      obtain ⟨d8, hd8⟩ := Option.isSome_iff_exists.mp
        ((readByte_isSome_iff data 8).mpr (by omega))
      obtain ⟨d9, hd9⟩ := Option.isSome_iff_exists.mp
        ((readByte_isSome_iff data 9).mpr (by omega))
      unfold Examples.MintToChecked.process_instruction
      rw [if_neg (by omega), hv, hd8, hd9]
      show (Examples.MintToChecked.process_mint_to_checked accounts v d8 d9
        execRes).execCalls = _
      rw [mint_to_checked_process_execCalls]
      have hdo : Examples.MintToChecked.decode_ok data = true :=
        (mint_to_checked_decode_ok_iff data).mpr h10
      by_cases hcp : Examples.MintToChecked.checks_pass accounts = true
      · rw [if_pos hcp, if_pos ⟨hdo, hcp⟩]
      · rw [if_neg hcp, if_neg (fun hc => hcp hc.2)]
    · have hdo : ¬ Examples.MintToChecked.decode_ok data = true := by
        rw [mint_to_checked_decode_ok_iff]
        omega
      rw [if_neg (fun hc => hdo hc.1)]
      by_cases hlen : data.length < 9
      · unfold Examples.MintToChecked.process_instruction
        rw [if_pos hlen]
      · obtain ⟨v, hv⟩ := readLE_eq_some data 8 0 (by omega)
        obtain ⟨d8, hd8⟩ := Option.isSome_iff_exists.mp
          ((readByte_isSome_iff data 8).mpr (by omega))
        have h9 : readByte data 9 = none := readByte_eq_none data 9 (by omega)
        unfold Examples.MintToChecked.process_instruction
        rw [if_neg hlen, hv, hd8, h9]

/-- C7: amended form. For the token-transfer operation of
`programs/src/transfer.rs`, once the writability checks on sender and
recipient pass, any invocation in which the sender's or recipient's owner
differs from the token program account's key fails with the owner-mismatch
error (`incorrectProgramId`) and the executor is never invoked; and when
both owners match, the validation itself never produces that error — it can
only reappear as an executor result passed through unchanged. -/
theorem c7_owner_mismatch_after_writability (s r a tp : AccountInfo)
    (amount pid : Nat) (execRes : Option ProgramError)
    (hs : s.is_writable = true) (hr : r.is_writable = true) :
    (¬(s.owner = tp.key ∧ r.owner = tp.key) →
      Programs.Transfer.process_transfer [s, r, a, tp] amount pid execRes =
        ⟨.failure .incorrectProgramId, 0⟩)
    ∧ (s.owner = tp.key → r.owner = tp.key →
      (Programs.Transfer.process_transfer [s, r, a, tp] amount pid execRes).result =
          .failure .incorrectProgramId →
        execRes = some .incorrectProgramId) := by
  constructor
  · intro hOwn
    have hb : (s.owner != tp.key || r.owner != tp.key) = true := by
      simp only [Bool.or_eq_true, bne_iff_ne, ne_eq]
      exact not_and_or.mp hOwn
    simp [Programs.Transfer.process_transfer, hs, hr, hb]
  · intro h1 h2 hres
    have hb : (s.owner != tp.key || r.owner != tp.key) = false := by
      simp [h1, h2]
    simp only [Programs.Transfer.process_transfer, hs, hr, hb] at hres
    cases hsig : a.is_signer
    · simp [hsig] at hres
    · cases execRes with
      | none => simp [hsig, invokeExec] at hres
      | some e =>
        simp [hsig, invokeExec] at hres
        rw [hres]

/-- Witness for C7 at concrete accounts: writable sender owned by key 9,
writable recipient owned by key 5, token program with key 5 — the sender's
owner mismatches, and the handler fails with `incorrectProgramId` without
reaching the executor. -/
theorem c7_owner_mismatch_witness :
    Programs.Transfer.process_transfer
        [⟨1, 9, false, true⟩, ⟨2, 5, false, true⟩, ⟨3, 0, true, false⟩,
         ⟨5, 0, false, false⟩] 7 0 none = ⟨.failure .incorrectProgramId, 0⟩ :=
  (c7_owner_mismatch_after_writability ⟨1, 9, false, true⟩ ⟨2, 5, false, true⟩
      ⟨3, 0, true, false⟩ ⟨5, 0, false, false⟩ 7 0 none rfl rfl).1 (by decide)

/-- C7, counterexample to the claim as stated: with a non-writable sender
whose owner also mismatches the token program's key, the handler fails with
`invalidAccountData`, not with the owner-mismatch error — the owner check is
only reached after the writability checks. -/
theorem c7_claim_counterexample :
    Programs.Transfer.process_transfer
        [⟨1, 9, false, false⟩, ⟨2, 5, false, true⟩, ⟨3, 0, true, false⟩,
         ⟨5, 0, false, false⟩] 7 0 none = ⟨.failure .invalidAccountData, 0⟩
    ∧ (⟨.failure .invalidAccountData, 0⟩ : Outcome) ≠
        ⟨.failure .incorrectProgramId, 0⟩ := by
  decide

/-- C8: decoding the 9-byte payload little-endian(amount) ++ [bump] with the
mint-to decoder yields exactly the original amount (8-byte little-endian at
offset 0) and exactly the original bump byte (offset 8); consequently the
entry point run on that payload behaves exactly like the handler called with
the original values. -/
theorem c8_mint_to_decode_roundtrip (amount b pid : Nat)
    (accounts : List AccountInfo) (execRes : Option ProgramError)
    (ha : amount < 2 ^ 64) :
    readLE (u64_to_le_bytes amount ++ [b]) 0 8 = some amount
    ∧ readByte (u64_to_le_bytes amount ++ [b]) 8 = some b
    ∧ Examples.MintTo.process_instruction pid accounts
        (u64_to_le_bytes amount ++ [b]) execRes =
      Examples.MintTo.process_mint_to accounts amount b execRes := by
  have h1 : readLE (u64_to_le_bytes amount ++ [b]) 0 8 = some amount := by
    simp [u64_to_le_bytes, readLE, readBytes, leVal]
    omega
  have h2 : readByte (u64_to_le_bytes amount ++ [b]) 8 = some b := by
    simp [u64_to_le_bytes, readByte]
  refine ⟨h1, h2, ?_⟩
  unfold Examples.MintTo.process_instruction
  rw [if_neg (by simp [u64_to_le_bytes]), h1, h2]

/-- Witness for C8 at the spec's example: amount 1000, bump 7. -/
theorem c8_mint_to_decode_witness :
    readLE (u64_to_le_bytes 1000 ++ [7]) 0 8 = some 1000
    ∧ readByte (u64_to_le_bytes 1000 ++ [7]) 8 = some 7
    ∧ Examples.MintTo.process_instruction 0 [] (u64_to_le_bytes 1000 ++ [7]) none =
      Examples.MintTo.process_mint_to [] 1000 7 none :=
  c8_mint_to_decode_roundtrip 1000 7 0 [] none (by norm_num)

/-- C9: amended form. Whenever the seed passed to the allocate-with-seed
handler is longer than `MAX_SEED_LEN` the executor is never invoked, and
when the account arity and base-signer checks pass the returned error is
`invalidSeeds`; if an earlier check fails, its error (`notEnoughAccountKeys`
or `missingRequiredSignature`) is returned instead. -/
theorem c9_seed_length_enforced (accounts : List AccountInfo) (seed : List Nat)
    (space : Nat) (owner : List Nat) (bump : Nat) (execRes : Option ProgramError)
    (hseed : MAX_SEED_LEN < seed.length) :
    (Examples.AllocateWithSeed.process_allocate_with_seed accounts seed space owner
        bump execRes).execCalls = 0
    ∧ (∀ alloc base, accounts = [alloc, base] → base.is_signer = true →
      Examples.AllocateWithSeed.process_allocate_with_seed accounts seed space owner
          bump execRes = ⟨.failure .invalidSeeds, 0⟩) := by
  constructor
  · rcases accounts with _ | ⟨x, _ | ⟨y, _ | ⟨z, rest⟩⟩⟩
    · rfl
    · rfl
    · cases hsig : y.is_signer
      · simp [Examples.AllocateWithSeed.process_allocate_with_seed, hsig]
      · simp [Examples.AllocateWithSeed.process_allocate_with_seed, hsig, hseed]
    · rfl
  · intro alloc base hacc hsig
    subst hacc
    simp [Examples.AllocateWithSeed.process_allocate_with_seed, hsig, hseed]

/-- Witness for C9 at a 33-byte seed with a signing base account. -/
theorem c9_seed_length_witness :
    (Examples.AllocateWithSeed.process_allocate_with_seed
        [⟨1, 0, false, true⟩, ⟨2, 0, true, false⟩] (List.replicate 33 0) 8 [] 7
        none).execCalls = 0
    ∧ Examples.AllocateWithSeed.process_allocate_with_seed
        [⟨1, 0, false, true⟩, ⟨2, 0, true, false⟩] (List.replicate 33 0) 8 [] 7
        none = ⟨.failure .invalidSeeds, 0⟩ :=
  ⟨(c9_seed_length_enforced [⟨1, 0, false, true⟩, ⟨2, 0, true, false⟩]
      (List.replicate 33 0) 8 [] 7 none (by decide)).1,
   (c9_seed_length_enforced [⟨1, 0, false, true⟩, ⟨2, 0, true, false⟩]
      (List.replicate 33 0) 8 [] 7 none (by decide)).2
      ⟨1, 0, false, true⟩ ⟨2, 0, true, false⟩ rfl rfl⟩

/-- C9, counterexample to the claim as stated: with an empty account list and
an over-long seed the handler returns `notEnoughAccountKeys`, not
`invalidSeeds` — the arity check runs first. -/
theorem c9_claim_counterexample :
    MAX_SEED_LEN < (List.replicate 33 (0 : Nat)).length
    ∧ Examples.AllocateWithSeed.process_allocate_with_seed []
        (List.replicate 33 0) 8 [] 7 none = ⟨.failure .notEnoughAccountKeys, 0⟩
    ∧ (⟨.failure .notEnoughAccountKeys, 0⟩ : Outcome) ≠
        ⟨.failure .invalidSeeds, 0⟩ := by
  decide

end PinocchioGuide
